import Mathlib

/-!
Verification of the census choropleth pipeline
(`src/hackathon_lamas_streamlit.py`).

The development shallowly embeds the program: spreadsheet cells are an
inductive `Cell` (missing / text / numeric), geometries are polygon or
multipolygon ring lists over rational coordinates, and the pipeline
functions `safe_loads`, `load_data`, `create_choropleth` and `main` are
translated from the source.  External library behaviour that the source
relies on is embedded at the granularity the program observes it:
`loads` models shapely's WKT reader on the POINT / LINESTRING / POLYGON /
MULTIPOLYGON fragment of the grammar (rejecting unclosed or undersized
rings and trailing residue, as GEOS does), `to_crs` models the pointwise coordinate reprojection (which
preserves ring order and point count) as an arbitrary coordinate map, and
pandas dtype selection is modelled by `isNumericDtype`.
-/

namespace Census

/-- Results of fallible steps are compared concretely in witnesses, so give
`Except` decidable equality. -/
instance {ε α : Type} [DecidableEq ε] [DecidableEq α] : DecidableEq (Except ε α) :=
  fun a b =>
    match a, b with
    | .error e, .error f => decidable_of_iff (e = f) (by simp)
    | .ok x, .ok y => decidable_of_iff (x = y) (by simp)
    | .error _, .ok _ => isFalse (by simp)
    | .ok _, .error _ => isFalse (by simp)

/-- A scalar cell of the tabular dataset: missing (pandas `NaN`), text, or
numeric. -/
inductive Cell where
  | nan : Cell
  | str : String → Cell
  | num : ℚ → Cell
deriving DecidableEq, Repr

/-- Returns `true` on numeric cells only. -/
def Cell.isNum : Cell → Bool
  | .num _ => true
  | _ => false

/-- A planar coordinate pair. -/
structure Pt where
  x : ℚ
  y : ℚ
deriving DecidableEq, Repr

/-- A linear ring: an ordered list of coordinate pairs. -/
abbrev LinearRing := List Pt

/-- A structured geometry as produced by the WKT reader.  shapely's reader
accepts every WKT geometry type; the embedding covers points and linestrings
(a coordinate list: empty for `EMPTY`, a singleton for one point) alongside
polygons and multipolygons, so that retention of non-polygonal geometries is
observable. -/
inductive Geometry where
  | point : List Pt → Geometry
  | lineString : List Pt → Geometry
  | polygon : List LinearRing → Geometry
  | multiPolygon : List (List LinearRing) → Geometry
deriving DecidableEq, Repr

/-- shapely's `is_empty`: no coordinates (a polygon with no rings, a
multipolygon whose parts are all empty). -/
def Geometry.is_empty : Geometry → Bool
  | .point ps => ps.isEmpty
  | .lineString ps => ps.isEmpty
  | .polygon rs => rs.isEmpty
  | .multiPolygon ps => ps.all (fun rs => rs.isEmpty)

/-- Is the geometry a polygon or multipolygon?  False of points and
linestrings, which the reader also accepts. -/
def Geometry.isPolygonal : Geometry → Bool
  | .point _ => false
  | .lineString _ => false
  | .polygon _ => true
  | .multiPolygon _ => true

/-- A ring parses only if its first and last coordinates coincide (GEOS:
"Points of LinearRing do not form a closed linestring"). -/
def ringClosed (r : LinearRing) : Bool := decide (r.head? = r.getLast?)

/-- A ring parses only with 0 or at least 4 points (GEOS: "Invalid number of
points in LinearRing"). -/
def ringSizeOk (r : LinearRing) : Bool := r.isEmpty || decide (4 ≤ r.length)

/-- Structural well-formedness of one ring, enforced by the WKT reader. -/
def ringOk (r : LinearRing) : Bool := ringSizeOk r && ringClosed r

/-- Structural well-formedness of a geometry, as the reader enforces it:
every polygon ring closed and of legal size; a linestring with 0 or at least
2 points (GEOS: "point array must contain 0 or >1 elements"); no constraint
on points. -/
def Geometry.wellFormed : Geometry → Bool
  | .point _ => true
  | .lineString ps => ps.isEmpty || decide (2 ≤ ps.length)
  | .polygon rs => rs.all ringOk
  | .multiPolygon ps => ps.all (fun rs => rs.all ringOk)

/-- All coordinates of a geometry, in ring order. -/
def Geometry.pts : Geometry → List Pt
  | .point ps => ps
  | .lineString ps => ps
  | .polygon rs => rs.flatten
  | .multiPolygon ps => (ps.map List.flatten).flatten

/-- Apply a coordinate transform to every point, preserving structure. -/
def Geometry.mapPoints (f : Pt → Pt) : Geometry → Geometry
  | .point ps => .point (ps.map f)
  | .lineString ps => .lineString (ps.map f)
  | .polygon rs => .polygon (rs.map (List.map f))
  | .multiPolygon ps => .multiPolygon (ps.map (fun rs => rs.map (List.map f)))

/-! ### The WKT reader

A token stream and a recursive-descent reader for the POINT / LINESTRING /
POLYGON / MULTIPOLYGON fragment of the well-known-text grammar.  Loops
recurse on an explicit fuel bound by the input length, so every function is
total. -/

/-- One WKT token. -/
inductive Tok where
  | lparen | rparen | comma
  | word : String → Tok
  | number : ℚ → Tok
deriving DecidableEq, Repr

/-- Numeric value of a digit character. -/
def digitVal (c : Char) : Nat := c.toNat - '0'.toNat

/-- Split a leading run of decimal digits off a character list. -/
def readDigits : List Char → (List Nat × List Char)
  | [] => ([], [])
  | c :: cs =>
    if c.isDigit then
      let (ds, rest) := readDigits cs
      (digitVal c :: ds, rest)
    else ([], c :: cs)

/-- Split a leading run of letters off a character list. -/
def readAlpha : List Char → (List Char × List Char)
  | [] => ([], [])
  | c :: cs =>
    if c.isAlpha then
      let (ws, rest) := readAlpha cs
      (c :: ws, rest)
    else ([], c :: cs)

/-- The natural number denoted by a digit run. -/
def natOfDigits (ds : List Nat) : Nat := ds.foldl (fun a d => 10 * a + d) 0

/-- The rational denoted by an integer part and a list of fraction digits. -/
def decToRat (ip : Nat) (fds : List Nat) : ℚ :=
  if fds.isEmpty then (ip : ℚ)
  else (ip : ℚ) + (natOfDigits fds : ℚ) / ((10 : ℚ) ^ fds.length)

/-- Read one signed decimal number off a character list. -/
def readNumber (cs : List Char) : Except String (ℚ × List Char) :=
  let sgn : Bool × List Char :=
    match cs with
    | '-' :: rest => (true, rest)
    | _ => (false, cs)
  let (ip, cs2) := readDigits sgn.2
  if ip.isEmpty then .error "wkt: expected a number"
  else
    let frac : List Nat × List Char :=
      match cs2 with
      | '.' :: rest => readDigits rest
      | _ => ([], cs2)
    let q := decToRat (natOfDigits ip) frac.1
    .ok ((if sgn.1 then -q else q), frac.2)

/-- Is this character insignificant whitespace? -/
def isWs (c : Char) : Bool := c = ' ' || c = '\t' || c = '\n' || c = '\r'

/-- Tokenizer loop; `fuel` dominates the number of characters left. -/
def tokenizeAux : Nat → List Char → Except String (List Tok)
  | 0, _ => .error "wkt: tokenizer ran out of fuel"
  | _, [] => .ok []
  | fuel + 1, c :: cs =>
    if isWs c then tokenizeAux fuel cs
    else if c = '(' then (tokenizeAux fuel cs).map (Tok.lparen :: ·)
    else if c = ')' then (tokenizeAux fuel cs).map (Tok.rparen :: ·)
    else if c = ',' then (tokenizeAux fuel cs).map (Tok.comma :: ·)
    else if c.isAlpha then
      match readAlpha (c :: cs) with
      | (ws, rest) => (tokenizeAux fuel rest).map (Tok.word (String.mk ws) :: ·)
    else if c = '-' || c.isDigit then
      match readNumber (c :: cs) with
      | .error e => .error e
      | .ok (q, rest) => (tokenizeAux fuel rest).map (Tok.number q :: ·)
    else .error "wkt: unexpected character"

/-- Tokenize a WKT string. -/
def tokenize (s : String) : Except String (List Tok) :=
  tokenizeAux (s.data.length + 1) s.data

/-- Read one `x y` coordinate pair from the token stream. -/
def parsePt : List Tok → Except String (Pt × List Tok)
  | Tok.number x :: Tok.number y :: rest => .ok (⟨x, y⟩, rest)
  | _ => .error "wkt: expected a coordinate pair"

/-- Read the comma-separated points of one ring, up to its closing paren. -/
def parsePtsAux : Nat → List Tok → Except String (List Pt × List Tok)
  | 0, _ => .error "wkt: ran out of fuel"
  | fuel + 1, ts =>
    match parsePt ts with
    | .error e => .error e
    | .ok (p, ts1) =>
      match ts1 with
      | Tok.comma :: ts2 => (parsePtsAux fuel ts2).map (fun (ps, ts3) => (p :: ps, ts3))
      | Tok.rparen :: ts2 => .ok ([p], ts2)
      | _ => .error "wkt: expected comma or closing paren"

/-- Read one parenthesised ring. -/
def parseRing (fuel : Nat) : List Tok → Except String (LinearRing × List Tok)
  | Tok.lparen :: ts => parsePtsAux fuel ts
  | _ => .error "wkt: expected a ring"

/-- Read the comma-separated rings of one polygon body, up to its closing
paren. -/
def parseRingsAux : Nat → List Tok → Except String (List LinearRing × List Tok)
  | 0, _ => .error "wkt: ran out of fuel"
  | fuel + 1, ts =>
    match parseRing fuel ts with
    | .error e => .error e
    | .ok (r, ts1) =>
      match ts1 with
      | Tok.comma :: ts2 => (parseRingsAux fuel ts2).map (fun (rs, ts3) => (r :: rs, ts3))
      | Tok.rparen :: ts2 => .ok ([r], ts2)
      | _ => .error "wkt: expected comma or closing paren"

/-- Read one polygon body: `EMPTY` or a parenthesised ring list. -/
def parsePolygonBody (fuel : Nat) : List Tok → Except String (List LinearRing × List Tok)
  | Tok.word "EMPTY" :: ts => .ok ([], ts)
  | Tok.lparen :: ts => parseRingsAux fuel ts
  | _ => .error "wkt: expected a polygon body"

/-- Read the comma-separated polygon bodies of a multipolygon, up to its
closing paren. -/
def parsePolysAux : Nat → List Tok → Except String (List (List LinearRing) × List Tok)
  | 0, _ => .error "wkt: ran out of fuel"
  | fuel + 1, ts =>
    match parsePolygonBody fuel ts with
    | .error e => .error e
    | .ok (p, ts1) =>
      match ts1 with
      | Tok.comma :: ts2 => (parsePolysAux fuel ts2).map (fun (ps, ts3) => (p :: ps, ts3))
      | Tok.rparen :: ts2 => .ok ([p], ts2)
      | _ => .error "wkt: expected comma or closing paren"

/-- Read one geometry off the token stream. -/
def parseGeometry (fuel : Nat) : List Tok → Except String (Geometry × List Tok)
  | Tok.word "POINT" :: Tok.word "EMPTY" :: ts => .ok (.point [], ts)
  | Tok.word "POINT" :: Tok.lparen :: ts =>
    match parsePt ts with
    | .error e => .error e
    | .ok (p, ts1) =>
      match ts1 with
      | Tok.rparen :: ts2 => .ok (.point [p], ts2)
      | _ => .error "wkt: expected closing paren"
  | Tok.word "LINESTRING" :: Tok.word "EMPTY" :: ts => .ok (.lineString [], ts)
  | Tok.word "LINESTRING" :: Tok.lparen :: ts =>
    (parsePtsAux fuel ts).map (fun (ps, rest) => (.lineString ps, rest))
  | Tok.word "POLYGON" :: ts =>
    (parsePolygonBody fuel ts).map (fun (rs, rest) => (.polygon rs, rest))
  | Tok.word "MULTIPOLYGON" :: Tok.word "EMPTY" :: ts => .ok (.multiPolygon [], ts)
  | Tok.word "MULTIPOLYGON" :: Tok.lparen :: ts =>
    (parsePolysAux fuel ts).map (fun (ps, rest) => (.multiPolygon ps, rest))
  | _ => .error "wkt: unsupported geometry type"

/-- Model of `shapely.wkt.loads` on the POINT / LINESTRING / POLYGON /
MULTIPOLYGON fragment of the well-known-text grammar: tokenize, parse one
geometry, reject trailing residue, and reject structurally invalid
geometries, raising (`.error`) in every failure case. -/
def loads (s : String) : Except String Geometry :=
  match tokenize s with
  | .error e => .error e
  | .ok toks =>
    match parseGeometry (toks.length + 1) toks with
    | .error e => .error e
    | .ok (g, rest) =>
      if rest.isEmpty then
        if g.wellFormed then .ok g else .error "wkt: invalid ring"
      else .error "wkt: trailing characters"

/-! ### The pipeline -/

/-- Model of `shapely.wkt.loads` applied to a raw cell: non-string input raises
`TypeError` ("Only str is accepted"), missing values included. -/
def loadsCell : Cell → Except String Geometry
  | .nan => .error "TypeError: only str is accepted"
  | .num _ => .error "TypeError: only str is accepted"
  | .str s => loads s

/-- Translation of `safe_loads` (source lines 17-26): absorb every failure into `none`.
The `.nan` case is the `pd.isna(wkt)` test; the `.num` case is the
`TypeError` raised by `loads` on non-string input, absorbed by the bare
`except`; the remaining cases follow the source line by line. -/
def safe_loads (wkt : Cell) : Option Geometry :=
  match wkt with
  | .nan => none
  | .num _ => none
  | .str s =>
    if s = "" then none
    else
      match loads s with
      | .error _ => none
      | .ok geom => if geom.is_empty then none else some geom

/-- One input row, as read from the spreadsheet: named cells. -/
structure Row where
  cells : List (String × Cell)
deriving DecidableEq, Repr

/-- Read one cell of a row; a column not materialised in the row reads as
missing (pandas fills absent values with `NaN`). -/
def Row.get (r : Row) (c : String) : Cell :=
  match r.cells.find? (fun p => p.1 = c) with
  | some p => p.2
  | none => Cell.nan

/-- The tabular dataset produced by `pd.read_excel`. -/
structure DataFrame where
  columns : List String
  rows : List Row
deriving DecidableEq, Repr

/-- One record of the GeoDataFrame: the original pandas index label, the
original row (whose non-geometry cells are the record's attributes), and the
structured geometry that replaced the `geometry` column. -/
structure GeoRow where
  idx : Nat
  base : Row
  geometry : Geometry
deriving DecidableEq, Repr

/-- Attribute access on a validated record: non-geometry columns read the
carried-through original cells. -/
def GeoRow.get (gr : GeoRow) (c : String) : Cell := gr.base.get c

/-- The validated collection (`gpd.GeoDataFrame`). -/
structure GeoDataFrame where
  rows : List GeoRow
deriving DecidableEq, Repr

/-- Model of `gdf.to_crs('EPSG:4326')`: reproject every coordinate of every geometry
through the (deterministic, pointwise) coordinate transform `proj`,
preserving ring order and point count. -/
def to_crs (proj : Pt → Pt) (gdf : GeoDataFrame) : GeoDataFrame :=
  ⟨gdf.rows.map (fun gr => { gr with geometry := gr.geometry.mapPoints proj })⟩

/-- Errors that escape to the caller. -/
inductive AppError where
  | keyError : String → AppError
  | noSelection : AppError
deriving DecidableEq, Repr

/-- Translation of `load_data` (source lines 12-42), from the already-read tabular data:
`df['geometry']` raises `KeyError('geometry')` when the column is absent;
otherwise apply `safe_loads` to every row's geometry cell, keep exactly the
rows whose result is non-`None` (original index labels preserved, as
`df[valid_mask]` does), attach the parsed geometries in place of the
`geometry` column, and reproject the collection from the source CRS
(EPSG:2039) to the display CRS through `proj`. -/
def load_data (proj : Pt → Pt) (df : DataFrame) : Except AppError GeoDataFrame :=
  if "geometry" ∈ df.columns then
    let geometries := df.rows.map (fun r => safe_loads (r.get "geometry"))
    let gdf : GeoDataFrame :=
      ⟨(df.rows.zip geometries).enum.filterMap
        (fun p => p.2.2.map (fun g => GeoRow.mk p.1 p.2.1 g))⟩
    .ok (to_crs proj gdf)
  else .error (.keyError "geometry")

/-- All coordinates appearing in the collection, in row order. -/
def allPoints (gdf : GeoDataFrame) : List Pt :=
  (gdf.rows.map (fun gr => gr.geometry.pts)).flatten

/-- The bounding extent (minx, miny, maxx, maxy). -/
structure Bounds where
  minx : ℚ
  miny : ℚ
  maxx : ℚ
  maxy : ℚ
deriving DecidableEq, Repr

/-- Model of `gdf.total_bounds`; `none` models the all-`NaN` bounds numpy returns for
an empty collection. -/
def total_bounds (gdf : GeoDataFrame) : Option Bounds :=
  match allPoints gdf with
  | [] => none
  | p :: ps =>
    some
      { minx := ps.foldl (fun a q => min a q.x) p.x
        miny := ps.foldl (fun a q => min a q.y) p.y
        maxx := ps.foldl (fun a q => max a q.x) p.x
        maxy := ps.foldl (fun a q => max a q.y) p.y }

/-- One rendered region of the choropleth: the record's index label (the
`locations` channel) and its value in the colored column. -/
structure Region where
  location : Nat
  value : Cell
deriving DecidableEq, Repr

/-- The renderable figure: the observable configuration
`px.choropleth_mapbox` is called with.  `center` is `none` when the bounds
are `NaN` (empty collection); `cmin`/`cmax` are the extremes of the colored
column, from which the continuous coloraxis maps values to scale
positions. -/
structure Fig where
  regions : List Region
  color_continuous_scale : String
  binned : Bool
  zoom : ℕ
  center : Option (ℚ × ℚ)
  opacity : ℚ
  hover_data : List String
  cmin : Option ℚ
  cmax : Option ℚ
deriving DecidableEq, Repr

/-- The numeric values present in one column of the collection. -/
def columnValues (gdf : GeoDataFrame) (c : String) : List ℚ :=
  gdf.rows.filterMap (fun gr =>
    match gr.get c with
    | .num q => some q
    | _ => none)

/-- Translation of `create_choropleth` (source lines 44-77): center the viewport on the
midpoints of the bounding extent, fixed `zoom=7`, one region per record
keyed by `gdf.index`, continuous Viridis color scale over `column_name`,
and hover data exposing the two locality-name columns and the colored
column. -/
def create_choropleth (gdf : GeoDataFrame) (column_name : String) : Fig :=
  let bounds := total_bounds gdf
  let vs := columnValues gdf column_name
  { regions := gdf.rows.map (fun gr => ⟨gr.idx, gr.get column_name⟩)
    color_continuous_scale := "Viridis"
    binned := false
    zoom := 7
    center := bounds.map (fun b => ((b.miny + b.maxy) / 2, (b.minx + b.maxx) / 2))
    opacity := (7 : ℚ) / 10
    hover_data := ["SHEM_YISHUV_ENG", "SHEM_YISHUV_HEB", column_name]
    cmin := vs.min?
    cmax := vs.max? }

/-- Plotly's continuous coloraxis: the position of value `v` along the
colorscale, as its fraction of the `[cmin, cmax]` range.  The Viridis color
at that position is a fixed monotone function of it. -/
def colorPos (fig : Fig) (v : ℚ) : ℚ :=
  match fig.cmin, fig.cmax with
  | some lo, some hi => (v - lo) / (hi - lo)
  | _, _ => 0

/-! ### The presentation shell (`main`) -/

/-- The hard-coded exclusion list of source line 91. -/
def columns_to_exclude : List String :=
  ["geometry", "SEMEL_YISHUV", "Shape_Length", "Shape_Area"]

/-- pandas dtype selection, as `gdf.select_dtypes(include=[np.number])` sees
it: a column read from a spreadsheet has numeric dtype iff every cell of the
original frame is numeric or missing (text forces object dtype; boolean-mask
row selection preserves dtypes), and the `geometry` column of a GeoDataFrame
has (non-numeric) geometry dtype. -/
def isNumericDtype (df : DataFrame) (c : String) : Bool :=
  df.rows.all (fun r =>
    match r.get c with
    | .num _ => true
    | .nan => true
    | .str _ => false)

/-- The columns `gdf.select_dtypes(include=[np.number])` keeps, in column
order. -/
def select_numeric_dtypes (df : DataFrame) : List String :=
  df.columns.filter (fun c => decide (c ≠ "geometry") && isNumericDtype df c)

/-- The `numeric_columns` list after the exclusion filter of source line 92. -/
def numeric_columns (df : DataFrame) : List String :=
  (select_numeric_dtypes df).filter (fun c => decide (c ∉ columns_to_exclude))

/-- The dropdown's initial selection (source lines 95-99): index of
`pop_approx` when present, else option 0; an empty options list leaves no
selection (streamlit returns `None`). -/
def default_selection (df : DataFrame) : Option String :=
  let cols := numeric_columns df
  if "pop_approx" ∈ cols then some "pop_approx" else cols.head?

/-- What one run of `main`'s body observably did. -/
structure MainResult where
  gdf : GeoDataFrame
  selected_column : String
  fig : Fig
  invoked_choropleth : Bool
  empty_state_shown : Bool

/-- The body of `main` (source lines 79-111) on the initial render: load the
data, build the numeric-column dropdown, take its default selection, and
build and show the choropleth.  The source contains no emptiness check and
no empty-state message: `create_choropleth` is invoked unconditionally once
a column is selected.  Indexing the frame with the `None` an empty dropdown
returns raises; that is the `noSelection` error. -/
def main (proj : Pt → Pt) (df : DataFrame) : Except AppError MainResult :=
  match load_data proj df with
  | .error e => .error e
  | .ok gdf =>
    match default_selection df with
    | none => .error .noSelection
    | some col =>
      .ok
        { gdf := gdf
          selected_column := col
          fig := create_choropleth gdf col
          invoked_choropleth := true
          empty_state_shown := false }

/-! ### Derived predicates and concrete data used by the theorems -/

/-- The per-row validation mask of source line 30: the row's geometry cell
parses (via `safe_loads`) to a structured, non-empty geometry. -/
def validWkt (r : Row) : Bool := (safe_loads (r.get "geometry")).isSome

/-- Direct recursive description of the rows `load_data` retains: row order
kept, original index labels kept, geometry replaced by the reprojected parse
result. -/
def loadedRows (proj : Pt → Pt) : List Row → Nat → List GeoRow
  | [], _ => []
  | r :: rs, n =>
    match safe_loads (r.get "geometry") with
    | some g => GeoRow.mk n r (g.mapPoints proj) :: loadedRows proj rs (n + 1)
    | none => loadedRows proj rs (n + 1)

/-- The identity coordinate transform, used to instantiate `proj` in
concrete runs. -/
def idProj : Pt → Pt := fun p => p

/-- A concrete frame: one parseable row, one malformed row, one row with a
missing geometry. -/
def dfW : DataFrame :=
  ⟨["geometry", "pop_approx"],
   [⟨[("geometry", .str "POLYGON ((0 0, 1 0, 1 1, 0 0))"), ("pop_approx", .num 100)]⟩,
    ⟨[("geometry", .str "garbage"), ("pop_approx", .num 200)]⟩,
    ⟨[("geometry", .nan), ("pop_approx", .num 300)]⟩]⟩

/-- The collection `load_data idProj dfW` produces. -/
def gdfW : GeoDataFrame :=
  ⟨[⟨0, ⟨[("geometry", .str "POLYGON ((0 0, 1 0, 1 1, 0 0))"), ("pop_approx", .num 100)]⟩,
     .polygon [[⟨0, 0⟩, ⟨1, 0⟩, ⟨1, 1⟩, ⟨0, 0⟩]]⟩]⟩

/-- The single record of `gdfW`. -/
def grW : GeoRow :=
  ⟨0, ⟨[("geometry", .str "POLYGON ((0 0, 1 0, 1 1, 0 0))"), ("pop_approx", .num 100)]⟩,
   .polygon [[⟨0, 0⟩, ⟨1, 0⟩, ⟨1, 1⟩, ⟨0, 0⟩]]⟩

/-- A concrete frame whose single row has malformed geometry text: the load
succeeds with an empty collection. -/
def df_cex : DataFrame :=
  ⟨["geometry", "pop_approx"],
   [⟨[("geometry", .str "oops"), ("pop_approx", .num 1)]⟩]⟩

/-- What `main idProj df_cex` produces: an empty collection, and the
choropleth invoked anyway. -/
def res_cex : MainResult :=
  { gdf := ⟨[]⟩
    selected_column := "pop_approx"
    fig := create_choropleth ⟨[]⟩ "pop_approx"
    invoked_choropleth := true
    empty_state_shown := false }

/-- A concrete frame without a `geometry` column. -/
def df_nocol : DataFrame :=
  ⟨["pop_approx"], [⟨[("pop_approx", .num 1)]⟩]⟩

/-- A concrete frame whose single row carries POINT WKT: shapely's reader
parses it, so the row is retained with a non-polygonal geometry. -/
def df_point : DataFrame :=
  ⟨["geometry", "pop_approx"],
   [⟨[("geometry", .str "POINT (1 2)"), ("pop_approx", .num 5)]⟩]⟩

/-- The record `load_data idProj df_point` retains. -/
def gr_point : GeoRow :=
  ⟨0, ⟨[("geometry", .str "POINT (1 2)"), ("pop_approx", .num 5)]⟩, .point [⟨1, 2⟩]⟩

/-- The collection `load_data idProj df_point` produces. -/
def gdf_point : GeoDataFrame := ⟨[gr_point]⟩

/-! ### Helper lemmas -/

theorem loads_empty_string : loads "" = .error "wkt: unsupported geometry type" := rfl

theorem safe_loads_some_iff (w : Cell) (g : Geometry) :
    safe_loads w = some g ↔ loadsCell w = .ok g ∧ g.is_empty = false := by
  cases w with
  | nan => simp [safe_loads, loadsCell]
  | num q => simp [safe_loads, loadsCell]
  | str s =>
    by_cases hs : s = ""
    · subst hs
      simp [safe_loads, loadsCell, loads_empty_string]
    · simp only [safe_loads, loadsCell, if_neg hs]
      cases hl : loads s with
      | error e => simp
      | ok g2 =>
        show (if g2.is_empty = true then none else some g2) = some g ↔ _
        by_cases he : g2.is_empty = true
        · rw [if_pos he]
          constructor
          · intro h; cases h
          · rintro ⟨h1, h2⟩
            rw [Except.ok.injEq] at h1
            subst h1
            rw [he] at h2
            cases h2
        · rw [if_neg he]
          have he2 : g2.is_empty = false := by
            cases hb : g2.is_empty
            · rfl
            · exact absurd hb he
          constructor
          · intro h
            rw [Option.some.injEq] at h
            subst h
            exact ⟨rfl, he2⟩
          · rintro ⟨h1, _⟩
            rw [Except.ok.injEq] at h1
            subst h1
            rfl

theorem safe_loads_none_iff (w : Cell) :
    safe_loads w = none ↔
      w = Cell.nan ∨ w = Cell.str "" ∨ (∃ e, loadsCell w = .error e) ∨
        ∃ g, loadsCell w = .ok g ∧ g.is_empty = true := by
  cases w with
  | nan => simp [safe_loads]
  | num q => simp [safe_loads, loadsCell]
  | str s =>
    by_cases hs : s = ""
    · subst hs; simp [safe_loads]
    · simp only [safe_loads, if_neg hs]
      cases hl : loads s with
      | error e => simp [loadsCell, hl, hs]
      | ok g2 =>
        cases he : g2.is_empty with
        | true => simp [loadsCell, hl, hs, he]
        | false => simp [loadsCell, hl, hs, he]

theorem loads_ok_wellFormed {s : String} {g : Geometry} (h : loads s = .ok g) :
    g.wellFormed = true := by
  unfold loads at h
  split at h
  · exact absurd h (by simp)
  · split at h
    · exact absurd h (by simp)
    · split at h
      · split at h
        · rw [Except.ok.injEq] at h
          subst h
          assumption
        · exact absurd h (by simp)
      · exact absurd h (by simp)

theorem isEmpty_list_map {α β : Type} (f : α → β) (l : List α) :
    (l.map f).isEmpty = l.isEmpty := by
  cases l <;> simp

theorem mapPoints_is_empty (f : Pt → Pt) (g : Geometry) :
    (g.mapPoints f).is_empty = g.is_empty := by
  cases g with
  | point ps => simp [Geometry.mapPoints, Geometry.is_empty, isEmpty_list_map]
  | lineString ps => simp [Geometry.mapPoints, Geometry.is_empty, isEmpty_list_map]
  | polygon rs => simp [Geometry.mapPoints, Geometry.is_empty, isEmpty_list_map]
  | multiPolygon ps =>
    induction ps with
    | nil => rfl
    | cons p t ih =>
      simp [Geometry.mapPoints, Geometry.is_empty, isEmpty_list_map] at ih ⊢
      rw [ih]

theorem ringOk_map (f : Pt → Pt) (r : LinearRing) (h : ringOk r = true) :
    ringOk (r.map f) = true := by
  simp only [ringOk, ringSizeOk, ringClosed, Bool.and_eq_true, Bool.or_eq_true,
    decide_eq_true_eq] at h ⊢
  obtain ⟨h1, h2⟩ := h
  refine ⟨?_, ?_⟩
  · rcases h1 with h1 | h1
    · exact Or.inl (by rw [isEmpty_list_map]; exact h1)
    · exact Or.inr (by rw [List.length_map]; exact h1)
  · rw [List.head?_map, List.getLast?_map, h2]

theorem mapPoints_wellFormed (f : Pt → Pt) (g : Geometry) (h : g.wellFormed = true) :
    (g.mapPoints f).wellFormed = true := by
  cases g with
  | point ps => rfl
  | lineString ps =>
    simp only [Geometry.wellFormed, Geometry.mapPoints, Bool.or_eq_true,
      decide_eq_true_eq, isEmpty_list_map, List.length_map] at h ⊢
    exact h
  | polygon rs =>
    simp only [Geometry.wellFormed, Geometry.mapPoints, List.all_map,
      List.all_eq_true, Function.comp] at h ⊢
    intro r hr
    exact ringOk_map f r (h r hr)
  | multiPolygon ps =>
    simp only [Geometry.wellFormed, Geometry.mapPoints, List.all_map,
      List.all_eq_true, Function.comp] at h ⊢
    intro rs hrs r hr
    exact ringOk_map f r (h rs hrs r hr)

theorem zipEnumFilterMap (proj : Pt → Pt) (rows : List Row) (n : Nat) :
    (((rows.zip (rows.map (fun r => safe_loads (r.get "geometry")))).enumFrom n).filterMap
        (fun p => p.2.2.map (fun g => GeoRow.mk p.1 p.2.1 g))).map
      (fun gr => { gr with geometry := gr.geometry.mapPoints proj }) =
      loadedRows proj rows n := by
  induction rows generalizing n with
  | nil => rfl
  | cons r rs ih =>
    have hzip : (r :: rs).zip ((r :: rs).map (fun r => safe_loads (r.get "geometry"))) =
        (r, safe_loads (r.get "geometry")) ::
          rs.zip (rs.map (fun r => safe_loads (r.get "geometry"))) := rfl
    rw [hzip]
    have henum : ∀ (p : Row × Option Geometry) (l : List (Row × Option Geometry)),
        List.enumFrom n (p :: l) = (n, p) :: List.enumFrom (n + 1) l := fun _ _ => rfl
    rw [henum]
    cases hg : safe_loads (r.get "geometry") with
    | none =>
      unfold loadedRows
      rw [hg]
      exact ih (n + 1)
    | some g =>
      unfold loadedRows
      rw [hg]
      exact congrArg (List.cons _) (ih (n + 1))

theorem load_data_eq (proj : Pt → Pt) (df : DataFrame) (h : "geometry" ∈ df.columns) :
    load_data proj df = .ok ⟨loadedRows proj df.rows 0⟩ := by
  unfold load_data
  rw [if_pos h]
  unfold to_crs
  exact congrArg Except.ok (congrArg GeoDataFrame.mk (zipEnumFilterMap proj df.rows 0))

theorem load_data_ne_of_missing (proj : Pt → Pt) (df : DataFrame)
    (h : "geometry" ∉ df.columns) :
    load_data proj df = .error (.keyError "geometry") := by
  unfold load_data
  rw [if_neg h]

theorem loadedRows_map_base (proj : Pt → Pt) (rows : List Row) (n : Nat) :
    (loadedRows proj rows n).map GeoRow.base = rows.filter validWkt := by
  induction rows generalizing n with
  | nil => rfl
  | cons r rs ih =>
    cases hg : safe_loads (r.get "geometry") with
    | none =>
      have hv : validWkt r = false := by simp [validWkt, hg]
      unfold loadedRows
      rw [hg, List.filter_cons, hv]
      simp only [Bool.false_eq_true, if_false]
      exact ih (n + 1)
    | some g =>
      have hv : validWkt r = true := by simp [validWkt, hg]
      unfold loadedRows
      rw [hg, List.filter_cons, hv]
      simp only [if_true]
      exact congrArg (List.cons r) (ih (n + 1))

theorem loadedRows_mem (proj : Pt → Pt) {rows : List Row} {n : Nat} {gr : GeoRow}
    (h : gr ∈ loadedRows proj rows n) :
    gr.base ∈ rows ∧ ∃ g, safe_loads (gr.base.get "geometry") = some g ∧
      gr.geometry = g.mapPoints proj := by
  induction rows generalizing n with
  | nil => simp [loadedRows] at h
  | cons r rs ih =>
    cases hg : safe_loads (r.get "geometry") with
    | none =>
      unfold loadedRows at h
      rw [hg] at h
      obtain ⟨h1, h2⟩ := ih h
      exact ⟨List.mem_cons_of_mem r h1, h2⟩
    | some g =>
      unfold loadedRows at h
      rw [hg] at h
      rcases List.mem_cons.mp h with rfl | h2
      · exact ⟨List.mem_cons_self r rs, g, hg, rfl⟩
      · obtain ⟨h1, h3⟩ := ih h2
        exact ⟨List.mem_cons_of_mem r h1, h3⟩

theorem foldl_min_spec {α : Type} [LinearOrder α] (l : List α) (a : α) :
    (l.foldl min a ≤ a ∧ ∀ x ∈ l, l.foldl min a ≤ x) ∧ l.foldl min a ∈ a :: l := by
  induction l generalizing a with
  | nil => simp
  | cons b t ih =>
    have ih2 := ih (min a b)
    rw [List.foldl_cons]
    refine ⟨⟨le_trans ih2.1.1 (min_le_left a b), ?_⟩, ?_⟩
    · intro x hx
      rcases List.mem_cons.mp hx with rfl | hx
      · exact le_trans ih2.1.1 (min_le_right a x)
      · exact ih2.1.2 x hx
    · rcases List.mem_cons.mp ih2.2 with hm | hm
      · rcases min_choice a b with hc | hc
        · rw [hm, hc]; exact List.mem_cons_self a (b :: t)
        · rw [hm, hc]; exact List.mem_cons_of_mem a (List.mem_cons_self b t)
      · exact List.mem_cons_of_mem a (List.mem_cons_of_mem b hm)

theorem foldl_max_spec {α : Type} [LinearOrder α] (l : List α) (a : α) :
    (a ≤ l.foldl max a ∧ ∀ x ∈ l, x ≤ l.foldl max a) ∧ l.foldl max a ∈ a :: l := by
  induction l generalizing a with
  | nil => simp
  | cons b t ih =>
    have ih2 := ih (max a b)
    rw [List.foldl_cons]
    refine ⟨⟨le_trans (le_max_left a b) ih2.1.1, ?_⟩, ?_⟩
    · intro x hx
      rcases List.mem_cons.mp hx with rfl | hx
      · exact le_trans (le_max_right a x) ih2.1.1
      · exact ih2.1.2 x hx
    · rcases List.mem_cons.mp ih2.2 with hm | hm
      · rcases max_choice a b with hc | hc
        · rw [hm, hc]; exact List.mem_cons_self a (b :: t)
        · rw [hm, hc]; exact List.mem_cons_of_mem a (List.mem_cons_self b t)
      · exact List.mem_cons_of_mem a (List.mem_cons_of_mem b hm)

theorem min?_le_max? {l : List ℚ} {lo hi : ℚ} (h1 : l.min? = some lo)
    (h2 : l.max? = some hi) : lo ≤ hi := by
  cases l with
  | nil => cases h1
  | cons a t =>
    rw [show (a :: t).min? = some (t.foldl min a) from rfl, Option.some.injEq] at h1
    rw [show (a :: t).max? = some (t.foldl max a) from rfl, Option.some.injEq] at h2
    rw [← h1, ← h2]
    exact le_trans (foldl_min_spec t a).1.1 (foldl_max_spec t a).1.1

theorem foldl_min_full {α : Type} [LinearOrder α] (a : α) (l : List α) :
    l.foldl min a ∈ a :: l ∧ ∀ u ∈ a :: l, l.foldl min a ≤ u := by
  refine ⟨(foldl_min_spec l a).2, ?_⟩
  intro u hu
  rcases List.mem_cons.mp hu with rfl | hu
  · exact (foldl_min_spec l u).1.1
  · exact (foldl_min_spec l a).1.2 u hu

theorem foldl_max_full {α : Type} [LinearOrder α] (a : α) (l : List α) :
    l.foldl max a ∈ a :: l ∧ ∀ u ∈ a :: l, u ≤ l.foldl max a := by
  refine ⟨(foldl_max_spec l a).2, ?_⟩
  intro u hu
  rcases List.mem_cons.mp hu with rfl | hu
  · exact (foldl_max_spec l u).1.1
  · exact (foldl_max_spec l a).1.2 u hu

theorem colorPos_mono (fig : Fig) {lo hi : ℚ} (hlo : fig.cmin = some lo)
    (hhi : fig.cmax = some hi) (hle : lo ≤ hi) (v1 v2 : ℚ) (h : v1 ≤ v2) :
    colorPos fig v1 ≤ colorPos fig v2 := by
  unfold colorPos
  rw [hlo, hhi]
  show (v1 - lo) / (hi - lo) ≤ (v2 - lo) / (hi - lo)
  rcases lt_or_eq_of_le hle with hlt | heq
  · have hpos : 0 < hi - lo := by linarith
    exact (div_le_div_iff_of_pos_right hpos).mpr (by linarith)
  · rw [← heq, sub_self, div_zero, div_zero]

/-! ### The claims -/

/-- Claim C1: the Geometry Parser `safe_loads` never raises (it is a total
function into `Option`); it returns the "no geometry" result (`none`)
exactly when the input is the missing marker or the empty string, or parsing
the text as WKT raises any error, or the parsed geometry is empty (the
spec's "no area/no points"); in every other case it returns the parsed
structured geometry. -/
theorem C1_safe_loads_contract (w : Cell) :
    (safe_loads w = none ↔
      w = Cell.nan ∨ w = Cell.str "" ∨ (∃ e, loadsCell w = .error e) ∨
        ∃ g, loadsCell w = .ok g ∧ g.is_empty = true) ∧
    ∀ g : Geometry, safe_loads w = some g ↔ loadsCell w = .ok g ∧ g.is_empty = false :=
  ⟨safe_loads_none_iff w, fun g => safe_loads_some_iff w g⟩

/-- Claim C1, witnessed on concrete inputs: `POLYGON EMPTY` is "no geometry",
a well-formed polygon is returned as parsed. -/
theorem C1_witness :
    safe_loads (Cell.str "POLYGON EMPTY") = none ∧
    safe_loads (Cell.str "POLYGON ((0 0, 1 0, 1 1, 0 0))") =
      some (.polygon [[⟨0, 0⟩, ⟨1, 0⟩, ⟨1, 1⟩, ⟨0, 0⟩]]) :=
  ⟨(C1_safe_loads_contract (Cell.str "POLYGON EMPTY")).1.mpr
      (Or.inr (Or.inr (Or.inr ⟨Geometry.polygon [], by rfl, rfl⟩))),
   ((C1_safe_loads_contract (Cell.str "POLYGON ((0 0, 1 0, 1 1, 0 0))")).2 _).mpr
      ⟨by rfl, rfl⟩⟩

/-- Claim C2: a row appears in the Validated Collection iff its geometry
cell parses to a non-empty structured geometry; the retained records are
exactly the order-preserving filter of the input rows; and the collection
size equals the count of valid rows and never exceeds the input size. -/
theorem C2_loader_filters_rows (proj : Pt → Pt) (df : DataFrame) (gdf : GeoDataFrame)
    (h : load_data proj df = .ok gdf) :
    gdf.rows.map GeoRow.base = df.rows.filter validWkt ∧
    (∀ r : Row, r ∈ gdf.rows.map GeoRow.base ↔ r ∈ df.rows ∧ validWkt r = true) ∧
    gdf.rows.length = df.rows.countP validWkt ∧
    gdf.rows.length ≤ df.rows.length := by
  by_cases hcol : "geometry" ∈ df.columns
  · rw [load_data_eq proj df hcol, Except.ok.injEq] at h
    subst h
    have hlen : (loadedRows proj df.rows 0).length = (df.rows.filter validWkt).length := by
      have h2 := congrArg List.length (loadedRows_map_base proj df.rows 0)
      rw [List.length_map] at h2
      exact h2
    refine ⟨loadedRows_map_base proj df.rows 0, ?_, ?_, ?_⟩
    · intro r
      rw [loadedRows_map_base proj df.rows 0, List.mem_filter]
    · rw [show (GeoDataFrame.mk (loadedRows proj df.rows 0)).rows = loadedRows proj df.rows 0
        from rfl, hlen, List.countP_eq_length_filter]
    · rw [show (GeoDataFrame.mk (loadedRows proj df.rows 0)).rows = loadedRows proj df.rows 0
        from rfl, hlen]
      exact List.length_filter_le _ _
  · rw [load_data_ne_of_missing proj df hcol] at h
    cases h

/-- Claim C2, witnessed on a concrete frame with one valid, one malformed and
one missing geometry. -/
theorem C2_witness :
    gdfW.rows.map GeoRow.base = dfW.rows.filter validWkt ∧
    (∀ r : Row, r ∈ gdfW.rows.map GeoRow.base ↔ r ∈ dfW.rows ∧ validWkt r = true) ∧
    gdfW.rows.length = dfW.rows.countP validWkt ∧
    gdfW.rows.length ≤ dfW.rows.length :=
  C2_loader_filters_rows idProj dfW gdfW (by rfl)

/-- Claim C3: when the geometry column exists but every row fails geometry
validation, the Loader succeeds with an empty Validated Collection. -/
theorem C3_all_invalid_yields_empty (proj : Pt → Pt) (df : DataFrame)
    (hcol : "geometry" ∈ df.columns)
    (hall : ∀ r ∈ df.rows, safe_loads (r.get "geometry") = none) :
    load_data proj df = .ok ⟨[]⟩ := by
  rw [load_data_eq proj df hcol]
  have hfil : df.rows.filter validWkt = [] := by
    rw [List.filter_eq_nil_iff]
    intro r hr
    simp [validWkt, hall r hr]
  have hmap := loadedRows_map_base proj df.rows 0
  rw [hfil] at hmap
  rw [List.map_eq_nil_iff.mp hmap]

/-- Claim C3, witnessed on a concrete frame whose only row has malformed
geometry text. -/
theorem C3_witness :
    ("geometry" ∈ df_cex.columns) ∧
    (∀ r ∈ df_cex.rows, safe_loads (r.get "geometry") = none) ∧
    load_data idProj df_cex = .ok ⟨[]⟩ :=
  ⟨by decide, by decide, C3_all_invalid_yields_empty idProj df_cex (by decide) (by decide)⟩

/-- Claim C4: when the required `geometry` column is absent, the Loader fails
fast with an error naming `geometry`, and returns no collection (the error
is the whole result, unlike absorbed per-row failures). -/
theorem C4_missing_geometry_column (proj : Pt → Pt) (df : DataFrame)
    (h : "geometry" ∉ df.columns) :
    load_data proj df = .error (.keyError "geometry") :=
  load_data_ne_of_missing proj df h

/-- Claim C4, witnessed on a concrete frame without a geometry column. -/
theorem C4_witness :
    ("geometry" ∉ df_nocol.columns) ∧
    load_data idProj df_nocol = .error (.keyError "geometry") :=
  ⟨by decide, C4_missing_geometry_column idProj df_nocol (by decide)⟩

/-- Claim C5 as stated is false of the program: `shapely.wkt.loads` accepts
every WKT geometry type, so the row carrying `POINT (1 2)` is retained
(non-empty, parse succeeds) and the Validated Collection holds a geometry
that is not a polygon or multipolygon. -/
theorem C5_counterexample :
    ¬ ∀ (proj : Pt → Pt) (df : DataFrame) (gdf : GeoDataFrame),
        load_data proj df = .ok gdf →
        ∀ gr ∈ gdf.rows, gr.geometry.is_empty = false ∧ gr.geometry.wellFormed = true ∧
          gr.geometry.isPolygonal = true := by
  intro hclaim
  have h := hclaim idProj df_point gdf_point rfl gr_point (by decide)
  exact absurd h.2.2 (by decide)

/-- Claim C5, amended: every record of the Validated Collection carries
exactly one geometry (the `geometry` field of the record), and that geometry
is non-empty and structurally well-formed (closed rings of legal size, no
parse residue); it is not necessarily a polygon or multipolygon, since the
reader accepts further WKT geometry types (see `C5_counterexample`). -/
theorem C5_validated_geometry_invariants (proj : Pt → Pt) (df : DataFrame)
    (gdf : GeoDataFrame) (h : load_data proj df = .ok gdf) :
    ∀ gr ∈ gdf.rows, gr.geometry.is_empty = false ∧ gr.geometry.wellFormed = true := by
  intro gr hgr
  by_cases hcol : "geometry" ∈ df.columns
  · rw [load_data_eq proj df hcol, Except.ok.injEq] at h
    subst h
    obtain ⟨-, g, hsl, hgeom⟩ := loadedRows_mem proj hgr
    obtain ⟨hok, hne⟩ := (safe_loads_some_iff _ g).mp hsl
    have hwf : g.wellFormed = true := by
      cases hw : gr.base.get "geometry" with
      | nan => rw [hw] at hok; cases hok
      | num q => rw [hw] at hok; cases hok
      | str s => rw [hw] at hok; exact loads_ok_wellFormed hok
    refine ⟨?_, ?_⟩
    · rw [hgeom, mapPoints_is_empty, hne]
    · rw [hgeom]
      exact mapPoints_wellFormed proj g hwf
  · rw [load_data_ne_of_missing proj df hcol] at h
    cases h

/-- Claim C5 (amended), witnessed on the concrete record of the collection
loaded from `dfW`. -/
theorem C5_witness :
    grW ∈ gdfW.rows ∧ grW.geometry.is_empty = false ∧ grW.geometry.wellFormed = true :=
  ⟨by decide, C5_validated_geometry_invariants idProj dfW gdfW (by rfl) grW (by decide)⟩

/-- Claim C6: for a non-empty collection, the viewport's center latitude is
the midpoint of the minimum and maximum y over all coordinates, the center
longitude the midpoint of the minimum and maximum x (the bounds are
genuinely the extremes of the bounding extent), and the zoom is the fixed
constant 7 for every collection and column. -/
theorem C6_viewport_center_and_zoom (gdf : GeoDataFrame) (col : String)
    (h : allPoints gdf ≠ []) :
    (∃ b : Bounds, total_bounds gdf = some b ∧
      (b.minx ∈ (allPoints gdf).map Pt.x ∧ ∀ u ∈ (allPoints gdf).map Pt.x, b.minx ≤ u) ∧
      (b.maxx ∈ (allPoints gdf).map Pt.x ∧ ∀ u ∈ (allPoints gdf).map Pt.x, u ≤ b.maxx) ∧
      (b.miny ∈ (allPoints gdf).map Pt.y ∧ ∀ u ∈ (allPoints gdf).map Pt.y, b.miny ≤ u) ∧
      (b.maxy ∈ (allPoints gdf).map Pt.y ∧ ∀ u ∈ (allPoints gdf).map Pt.y, u ≤ b.maxy) ∧
      (create_choropleth gdf col).center =
        some ((b.miny + b.maxy) / 2, (b.minx + b.maxx) / 2)) ∧
    ∀ (gdf2 : GeoDataFrame) (col2 : String), (create_choropleth gdf2 col2).zoom = 7 := by
  constructor
  · cases hap : allPoints gdf with
    | nil => exact absurd hap h
    | cons p ps =>
      have hb : total_bounds gdf =
          some ⟨ps.foldl (fun a q => min a q.x) p.x, ps.foldl (fun a q => min a q.y) p.y,
            ps.foldl (fun a q => max a q.x) p.x, ps.foldl (fun a q => max a q.y) p.y⟩ := by
        unfold total_bounds
        rw [hap]
      refine ⟨_, hb, ?_, ?_, ?_, ?_, ?_⟩
      · have hm := foldl_min_full p.x (ps.map Pt.x)
        rw [List.foldl_map] at hm
        rw [List.map_cons]
        exact hm
      · have hm := foldl_max_full p.x (ps.map Pt.x)
        rw [List.foldl_map] at hm
        rw [List.map_cons]
        exact hm
      · have hm := foldl_min_full p.y (ps.map Pt.y)
        rw [List.foldl_map] at hm
        rw [List.map_cons]
        exact hm
      · have hm := foldl_max_full p.y (ps.map Pt.y)
        rw [List.foldl_map] at hm
        rw [List.map_cons]
        exact hm
      · rw [show (create_choropleth gdf col).center =
          (total_bounds gdf).map
            (fun b => ((b.miny + b.maxy) / 2, (b.minx + b.maxx) / 2)) from rfl, hb]
        rfl
  · intro gdf2 col2
    rfl

/-- Claim C6, witnessed on the concrete collection `gdfW`. -/
theorem C6_witness :
    allPoints gdfW ≠ [] ∧
    (∃ b : Bounds, total_bounds gdfW = some b ∧
      (create_choropleth gdfW "pop_approx").center =
        some ((b.miny + b.maxy) / 2, (b.minx + b.maxx) / 2)) ∧
    (create_choropleth gdfW "pop_approx").zoom = 7 := by
  obtain ⟨⟨b, hb, -, -, -, -, hc⟩, hz⟩ :=
    C6_viewport_center_and_zoom gdfW "pop_approx" (by decide)
  exact ⟨by decide, ⟨b, hb, hc⟩, hz gdfW "pop_approx"⟩

/-- Claim C7 as stated is false of the code: `main` contains no emptiness
short-circuit.  On the concrete frame `df_cex` the load succeeds with an
empty Validated Collection, and `main` still invokes the Choropleth Builder
and renders no empty-state message. -/
theorem C7_counterexample :
    ¬ ∀ (proj : Pt → Pt) (df : DataFrame) (res : MainResult),
        main proj df = .ok res → res.gdf.rows = [] →
        res.invoked_choropleth = false ∧ res.empty_state_shown = true := by
  intro hclaim
  have h := hclaim idProj df_cex res_cex rfl rfl
  exact absurd h.1 (by decide)

/-- Claim C7, amended: whenever `main` completes, it has invoked the
Choropleth Builder (and thereby the Viewport Calculator inside it) and has
not rendered an empty-state message — even when the Validated Collection is
empty; the code has no short-circuit. -/
theorem C7_amended_no_short_circuit (proj : Pt → Pt) (df : DataFrame) (res : MainResult)
    (h : main proj df = .ok res) :
    res.invoked_choropleth = true ∧ res.empty_state_shown = false := by
  unfold main at h
  split at h
  · cases h
  · split at h
    · cases h
    · rw [Except.ok.injEq] at h
      subst h
      exact ⟨rfl, rfl⟩

/-- Claim C7 (amended), witnessed on the concrete empty-collection run. -/
theorem C7_witness :
    res_cex.gdf.rows = [] ∧ res_cex.invoked_choropleth = true ∧
    res_cex.empty_state_shown = false := by
  have h := C7_amended_no_short_circuit idProj df_cex res_cex rfl
  exact ⟨rfl, h.1, h.2⟩

/-- Claim C8: every retained record carries its original row unchanged (so
every non-geometry attribute reads exactly the original cell), and only the
geometry field was replaced — by the parsed, reprojected geometry. -/
theorem C8_only_geometry_replaced (proj : Pt → Pt) (df : DataFrame)
    (gdf : GeoDataFrame) (h : load_data proj df = .ok gdf) :
    ∀ gr ∈ gdf.rows, gr.base ∈ df.rows ∧
      (∀ c : String, c ≠ "geometry" → gr.get c = gr.base.get c) ∧
      ∃ g, safe_loads (gr.base.get "geometry") = some g ∧
        gr.geometry = g.mapPoints proj := by
  intro gr hgr
  by_cases hcol : "geometry" ∈ df.columns
  · rw [load_data_eq proj df hcol, Except.ok.injEq] at h
    subst h
    obtain ⟨h1, h2⟩ := loadedRows_mem proj hgr
    exact ⟨h1, fun c _ => rfl, h2⟩
  · rw [load_data_ne_of_missing proj df hcol] at h
    cases h

/-- Claim C8, witnessed on the concrete record of the collection loaded from
`dfW`. -/
theorem C8_witness :
    grW ∈ gdfW.rows ∧ grW.base ∈ dfW.rows ∧
      grW.get "pop_approx" = grW.base.get "pop_approx" ∧
      ∃ g, safe_loads (grW.base.get "geometry") = some g ∧
        grW.geometry = g.mapPoints idProj := by
  have h := C8_only_geometry_replaced idProj dfW gdfW (by rfl) grW (by decide)
  exact ⟨by decide, h.1, h.2.1 "pop_approx" (by decide), h.2.2⟩

/-- Claim C9: for a collection whose records all carry a numeric value in
the selected column, the Choropleth Builder emits exactly one region per
record (in particular N regions for N records), a continuous (not binned)
Viridis scale whose position is monotone in the value, and hover metadata
exposing the two locality-name attributes and the selected column. -/
theorem C9_choropleth_regions (gdf : GeoDataFrame) (col : String)
    (hnum : ∀ gr ∈ gdf.rows, (GeoRow.get gr col).isNum = true) :
    (create_choropleth gdf col).regions =
      gdf.rows.map (fun gr => ⟨gr.idx, gr.get col⟩) ∧
    (create_choropleth gdf col).regions.length = gdf.rows.length ∧
    (create_choropleth gdf col).binned = false ∧
    (create_choropleth gdf col).color_continuous_scale = "Viridis" ∧
    (create_choropleth gdf col).hover_data = ["SHEM_YISHUV_ENG", "SHEM_YISHUV_HEB", col] ∧
    (∀ r ∈ (create_choropleth gdf col).regions, r.value.isNum = true) ∧
    ∀ v1 v2 : ℚ, v1 ≤ v2 →
      colorPos (create_choropleth gdf col) v1 ≤ colorPos (create_choropleth gdf col) v2 := by
  refine ⟨rfl, List.length_map _ _, rfl, rfl, rfl, ?_, ?_⟩
  · intro r hr
    obtain ⟨gr, hgr, hr2⟩ := List.mem_map.mp hr
    rw [← hr2]
    exact hnum gr hgr
  · intro v1 v2 hv
    cases hcv : columnValues gdf col with
    | nil =>
      have h0 : ∀ v : ℚ, colorPos (create_choropleth gdf col) v = 0 := by
        intro v
        unfold colorPos
        rw [show (create_choropleth gdf col).cmin = (columnValues gdf col).min? from rfl,
          show (create_choropleth gdf col).cmax = (columnValues gdf col).max? from rfl, hcv]
        rfl
      rw [h0 v1, h0 v2]
    | cons a t =>
      refine @colorPos_mono (create_choropleth gdf col)
        (t.foldl min a) (t.foldl max a) ?_ ?_ ?_ v1 v2 hv
      · rw [show (create_choropleth gdf col).cmin = (columnValues gdf col).min? from rfl, hcv]
        rfl
      · rw [show (create_choropleth gdf col).cmax = (columnValues gdf col).max? from rfl, hcv]
        rfl
      · exact le_trans (foldl_min_spec t a).1.1 (foldl_max_spec t a).1.1

/-- Claim C9, witnessed on the concrete collection `gdfW`. -/
theorem C9_witness :
    (∀ gr ∈ gdfW.rows, (GeoRow.get gr "pop_approx").isNum = true) ∧
    (create_choropleth gdfW "pop_approx").regions.length = gdfW.rows.length :=
  ⟨by decide, (C9_choropleth_regions gdfW "pop_approx" (by decide)).2.1⟩

/-- Claim C10: the selectable color fields are exactly the numeric-dtype
attribute columns minus the fixed, exact-name exclusion list
`geometry / SEMEL_YISHUV / Shape_Length / Shape_Area`, and the default
selection is `pop_approx` whenever it is among the selectable columns. -/
theorem C10_color_field_options (df : DataFrame) :
    columns_to_exclude = ["geometry", "SEMEL_YISHUV", "Shape_Length", "Shape_Area"] ∧
    (∀ c : String, c ∈ numeric_columns df ↔
      c ∈ df.columns ∧ c ≠ "geometry" ∧ isNumericDtype df c = true ∧
        c ∉ columns_to_exclude) ∧
    ("pop_approx" ∈ numeric_columns df → default_selection df = some "pop_approx") := by
  refine ⟨rfl, ?_, ?_⟩
  · intro c
    unfold numeric_columns select_numeric_dtypes
    simp only [List.mem_filter, Bool.and_eq_true, decide_eq_true_eq]
    tauto
  · intro h
    unfold default_selection
    rw [if_pos h]

/-- Claim C10, witnessed on the concrete frame `dfW`. -/
theorem C10_witness :
    ("pop_approx" ∈ numeric_columns dfW) ∧
    default_selection dfW = some "pop_approx" :=
  ⟨by decide, (C10_color_field_options dfW).2.2 (by decide)⟩

end Census
